import Mathlib

/-!
Verification of the slopnet-mcp publishing core.

The definitions below are a shallow embedding, translated from the Python
sources of the repository:

* `src/extraction.py` — entity URIs (`create_entity_uri`), the position
  mapper (`char_to_line`), the graph builder (`build_rdf_graph`) and the
  statement serializer (`quads_to_sparql_insert`);
* `src/server.py` — the staged publish pipeline (`post_slop`).

Conventions of the embedding:

* Python `str` values are Lean `String`s; character positions index the
  sequence of code points, as in Python.
* `hashlib.md5` is implemented in full (RFC 1321) over byte lists, with
  32-bit words represented as `Nat` reduced modulo `2 ^ 32`.
* Python dictionaries (`metadata`, entity records) become association
  lists / structures with `Option` fields; `dict.get` with a default is
  `Option.getD` after lookup.
* Fallible constructions (`pyoxigraph.Literal` applied to a non-string
  value raises) are modelled with `Except String`.
-/

namespace SlopNet

/-! ### 32-bit arithmetic and MD5 (the `hashlib.md5(...)` call)

`create_entity_uri` in `src/extraction.py` computes
`hashlib.md5(normalized.encode()).hexdigest()[:8]`.  The MD5 algorithm is
implemented here directly from RFC 1321, operating on the UTF-8 bytes of
the normalized text. -/

/-- Reduce to a 32-bit machine word. -/
def w32 (n : Nat) : Nat := n % 4294967296

/-- Rotate a 32-bit word (`x < 2 ^ 32`) left by `s` bits. -/
def rotl32 (x s : Nat) : Nat := w32 (x * 2 ^ s + x / 2 ^ (32 - s))

/-- The 64 MD5 round constants `K[i] = floor(|sin(i+1)| * 2^32)`. -/
def md5K : List Nat :=
  [3614090360, 3905402710, 606105819, 3250441966, 4118548399, 1200080426,
   2821735955, 4249261313, 1770035416, 2336552879, 4294925233, 2304563134,
   1804603682, 4254626195, 2792965006, 1236535329, 4129170786, 3225465664,
   643717713, 3921069994, 3593408605, 38016083, 3634488961, 3889429448,
   568446438, 3275163606, 4107603335, 1163531501, 2850285829, 4243563512,
   1735328473, 2368359562, 4294588738, 2272392833, 1839030562, 4259657740,
   2763975236, 1272893353, 4139469664, 3200236656, 681279174, 3936430074,
   3572445317, 76029189, 3654602809, 3873151461, 530742520, 3299628645,
   4096336452, 1126891415, 2878612391, 4237533241, 1700485571, 2399980690,
   4293915773, 2240044497, 1873313359, 4264355552, 2734768916, 1309151649,
   4149444226, 3174756917, 718787259, 3951481745]

/-- The 64 MD5 per-round left-rotation amounts. -/
def md5S : List Nat :=
  [7, 12, 17, 22, 7, 12, 17, 22, 7, 12, 17, 22, 7, 12, 17, 22,
   5, 9, 14, 20, 5, 9, 14, 20, 5, 9, 14, 20, 5, 9, 14, 20,
   4, 11, 16, 23, 4, 11, 16, 23, 4, 11, 16, 23, 4, 11, 16, 23,
   6, 10, 15, 21, 6, 10, 15, 21, 6, 10, 15, 21, 6, 10, 15, 21]

/-- The MD5 nonlinear mixing function for round `i` (complement of a
32-bit word `x` is `4294967295 - x`). -/
def md5F (i b c d : Nat) : Nat :=
  if i < 16 then (b &&& c) ||| ((4294967295 - b) &&& d)
  else if i < 32 then (d &&& b) ||| ((4294967295 - d) &&& c)
  else if i < 48 then b ^^^ c ^^^ d
  else c ^^^ (b ||| (4294967295 - d))

/-- The MD5 message-word index for round `i`. -/
def md5G (i : Nat) : Nat :=
  if i < 16 then i
  else if i < 32 then (5 * i + 1) % 16
  else if i < 48 then (3 * i + 5) % 16
  else (7 * i) % 16

/-- One MD5 round on state `(a, b, c, d)` with message words `M`. -/
def md5Round (M : List Nat) (st : Nat × Nat × Nat × Nat) (i : Nat) :
    Nat × Nat × Nat × Nat :=
  let (a, b, c, d) := st
  let x := w32 (a + md5F i b c d + md5K.getD i 0 + M.getD (md5G i) 0)
  (d, w32 (b + rotl32 x (md5S.getD i 0)), b, c)

/-- The MD5 compression function: 64 rounds on one 16-word block,
followed by the feed-forward addition. -/
def md5Compress (st : Nat × Nat × Nat × Nat) (M : List Nat) :
    Nat × Nat × Nat × Nat :=
  let r := (List.range 64).foldl (md5Round M) st
  (w32 (st.1 + r.1), w32 (st.2.1 + r.2.1),
   w32 (st.2.2.1 + r.2.2.1), w32 (st.2.2.2 + r.2.2.2))

/-- The `k` least-significant bytes of `n`, little-endian. -/
def leBytes : Nat → Nat → List Nat
  | 0, _ => []
  | k + 1, n => n % 256 :: leBytes k (n / 256)

/-- MD5 padding: append `0x80`, zero bytes to 56 mod 64, then the bit
length as a little-endian 64-bit quantity. -/
def md5pad (msg : List Nat) : List Nat :=
  let len := msg.length
  let z := (64 + 56 - (len + 1) % 64) % 64
  msg ++ 128 :: (List.replicate z 0 ++ leBytes 8 (8 * len))

/-- Group a byte list into little-endian 32-bit words. -/
def toWordsLE : List Nat → List Nat
  | b0 :: b1 :: b2 :: b3 :: rest =>
      (b0 + 256 * b1 + 65536 * b2 + 16777216 * b3) :: toWordsLE rest
  | _ => []

/-- Group a word list into 16-word blocks. -/
def chunk16 : List Nat → List (List Nat)
  | w0 :: w1 :: w2 :: w3 :: w4 :: w5 :: w6 :: w7 ::
    w8 :: w9 :: w10 :: w11 :: w12 :: w13 :: w14 :: w15 :: rest =>
      [w0, w1, w2, w3, w4, w5, w6, w7,
       w8, w9, w10, w11, w12, w13, w14, w15] :: chunk16 rest
  | _ => []

/-- The 16-byte MD5 digest of a byte list. -/
def md5Bytes (msg : List Nat) : List Nat :=
  let blocks := chunk16 (toWordsLE (md5pad msg))
  let st := blocks.foldl md5Compress (1732584193, 4023233417, 2562383102, 271733878)
  leBytes 4 st.1 ++ leBytes 4 st.2.1 ++ leBytes 4 st.2.2.1 ++ leBytes 4 st.2.2.2

/-- Lower-case hexadecimal digit for `n < 16`. -/
def hexDigit (n : Nat) : Char :=
  if n < 10 then Char.ofNat (48 + n) else Char.ofNat (87 + n)

/-- The 32-character lower-case hex digest, as `hexdigest()` returns it. -/
def md5Hexdigest (msg : List Nat) : String :=
  String.mk ((md5Bytes msg).map (fun b => [hexDigit (b / 16), hexDigit (b % 16)])).flatten

/-! ### Python string primitives used by `create_entity_uri` -/

/-- `str.encode()`: the UTF-8 bytes of one code point. -/
def utf8EncodeChar (c : Char) : List Nat :=
  let n := c.toNat
  if n < 128 then [n]
  else if n < 2048 then [192 + n / 64, 128 + n % 64]
  else if n < 65536 then [224 + n / 4096, 128 + n / 64 % 64, 128 + n % 64]
  else [240 + n / 262144, 128 + n / 4096 % 64, 128 + n / 64 % 64, 128 + n % 64]

/-- `str.encode()`: the UTF-8 bytes of a string. -/
def utf8Encode (s : String) : List Nat :=
  (s.toList.map utf8EncodeChar).flatten

/-- `str.lower()` on one character (modelled over the ASCII alphabet;
the Unicode case table beyond ASCII is not needed by any claim). -/
def pyLowerChar (c : Char) : Char :=
  if 'A' ≤ c ∧ c ≤ 'Z' then Char.ofNat (c.toNat + 32) else c

/-- `str.lower()`. -/
def pyLower (s : String) : String := String.mk (s.toList.map pyLowerChar)

/-- Whitespace as `str.strip()` removes it (the ASCII whitespace set;
Unicode-only spaces are not needed by any claim). -/
def isPySpace (c : Char) : Bool :=
  c = ' ' || c = '\t' || c = '\n' || c = '\r' || c = '\x0b' || c = '\x0c'

/-- `str.strip()`: drop whitespace from both ends. -/
def pyStrip (s : String) : String :=
  String.mk (((s.toList.dropWhile isPySpace).reverse.dropWhile isPySpace).reverse)

/-- `text.lower().strip()`, the normalization inside `create_entity_uri`. -/
def pyNormalize (text : String) : String := pyStrip (pyLower text)

/-! ### `create_entity_uri` (src/extraction.py, lines 133–138) -/

/-- `create_entity_uri`: stable entity URI from normalized text.
`hash_val` is the first 8 hex characters of the MD5 of the normalized
text; `slug` is the normalized text with spaces replaced by `-`,
truncated to 50 characters. -/
def create_entity_uri (text : String) : String :=
  let normalized := pyNormalize text
  let hash_val := String.mk ((md5Hexdigest (utf8Encode normalized)).toList.take 8)
  let slug := String.mk ((normalized.toList.map (fun c => if c = ' ' then '-' else c)).take 50)
  "https://slop.at/entity/" ++ hash_val ++ "/" ++ slug

/-! ### `char_to_line` (src/extraction.py, lines 124–130) -/

/-- `char_to_line`: 1-indexed line number of a character position.  The
text is the list of its code points; the position is an `Int` because
Python callers may pass negative offsets. -/
def char_to_line (text : List Char) (char_pos : Int) : Nat :=
  if char_pos < 0 then 1
  else if (text.length : Int) ≤ char_pos then text.count '\n' + 1
  else (text.take char_pos.toNat).count '\n' + 1

/-! ### RDF terms and quads (the pyoxigraph objects the builder creates)

`build_rdf_graph` only ever constructs `NamedNode` and `Literal` terms
(with an optional datatype), and every quad it emits carries the one
named graph of the document; `quads_to_sparql_insert` additionally
accepts quads in the default graph, modelled as `graph = none`. -/

/-- An RDF term: an IRI or a literal with optional datatype IRI. -/
inductive Term where
  | namedNode (uri : String)
  | literal (value : String) (datatype : Option String)
deriving DecidableEq, Repr

/-- A statement plus its named-graph scope; `none` is the default graph. -/
structure Quad where
  subject : Term
  predicate : Term
  object : Term
  graph : Option String
deriving DecidableEq, Repr

/-- Namespace constant `KNOW` of src/extraction.py. -/
def KNOW : String := "https://know.dev/"

/-- Namespace constant `SCHEMA` of src/extraction.py. -/
def SCHEMA : String := "https://schema.org/"

/-- Namespace constant `NFO` of src/extraction.py. -/
def NFO : String := "http://www.semanticdesktop.org/ontologies/2007/03/22/nfo#"

/-- Namespace constant `SLOP` of src/extraction.py. -/
def SLOP : String := "https://slop.at/ontology#"

/-- Namespace constant `RDF` of src/extraction.py. -/
def RDF : String := "http://www.w3.org/1999/02/22-rdf-syntax-ns#"

/-- Namespace constant `DCTERMS` of src/extraction.py. -/
def DCTERMS : String := "http://purl.org/dc/terms/"

/-- Namespace constant `XSD` of src/extraction.py. -/
def XSD : String := "http://www.w3.org/2001/XMLSchema#"

/-! ### Python values appearing in the metadata dictionary

The frontmatter metadata is a Python `dict` whose values, as produced by
the caller in `src/server.py`, are strings or lists of strings (the
`tags` entry).  A `dict` is modelled as an association list with
first-match lookup. -/

/-- A metadata value: a Python string or a list of strings. -/
inductive MetaVal where
  | str (v : String)
  | strList (vs : List String)
deriving DecidableEq, Repr

/-- The frontmatter metadata dictionary. -/
abbrev Metadata := List (String × MetaVal)

/-- `metadata[key]` / `key in metadata`: first-match association lookup. -/
def lookupMeta (md : Metadata) (k : String) : Option MetaVal :=
  (md.find? (fun p => p.1 = k)).map (·.2)

/-- Python `str()` of a metadata value, as an f-string interpolates it
(string-repr escaping inside list elements is not needed by any claim). -/
def MetaVal.pyStr : MetaVal → String
  | .str v => v
  | .strList vs => "[" ++ String.intercalate ", " (vs.map (fun v => "'" ++ v ++ "'")) ++ "]"

/-- `pyoxigraph.Literal(value)`: succeeds on a string, raises `TypeError`
on any other value. -/
def pyLiteral : MetaVal → Except String Term
  | .str v => .ok (.literal v none)
  | .strList _ => .error "TypeError: Literal value must be a string"

/-- An extracted entity record, as `build_rdf_graph` consumes it: the
keys `text`, `label` and `score` are always read (a missing key would be
a `KeyError` in every caller's records they are always present), while
`line_start` / `line_end` are tested with `in` before use.  `score`
carries the lexical form `str(score)`; float formatting itself is not
needed by any claim. -/
structure Entity where
  text : String
  label : String
  score : String
  line_start : Option Int
  line_end : Option Int
deriving DecidableEq, Repr

/-! ### `build_rdf_graph` (src/extraction.py, lines 146–238) -/

/-- `filepath.name`: the final path component (POSIX `pathlib`). -/
def pathName (filepath : String) : String :=
  (filepath.splitOn "/").getLastD ""

/-- `github_url.split("/")[4] if len(github_url.split("/")) > 4 else "slop"`. -/
def repoNameOf (github_url : String) : String :=
  let parts := github_url.splitOn "/"
  if 4 < parts.length then parts.getD 4 "" else "slop"

/-- The named-graph URI
`https://slop.at/graph/{author}/{repo_name}/{slop_id}` computed at the
top of `build_rdf_graph`; `slop_id` and `author` default to `"unknown"`
when absent from the metadata, and the f-string applies `str()`. -/
def graphUriOf (github_url : String) (metadata : Metadata) : String :=
  let slop_id := ((lookupMeta metadata "slop_id").getD (.str "unknown")).pyStr
  let author := ((lookupMeta metadata "author").getD (.str "unknown")).pyStr
  "https://slop.at/graph/" ++ author ++ "/" ++ repoNameOf github_url ++ "/" ++ slop_id

/-- `add_quad`: every statement is scoped to the document's named graph. -/
def mkQuad (s p o : Term) (g : String) : Quad := ⟨s, p, o, some g⟩

/-- The four file-metadata statements at the top of `build_rdf_graph`. -/
def fileQuadsOf (filepath github_url g : String) : List Quad :=
  [mkQuad (.namedNode github_url) (.namedNode (RDF ++ "type")) (.namedNode (NFO ++ "FileDataObject")) g,
   mkQuad (.namedNode github_url) (.namedNode (RDF ++ "type")) (.namedNode (SLOP ++ "Slop")) g,
   mkQuad (.namedNode github_url) (.namedNode (NFO ++ "fileName")) (.literal (pathName filepath) none) g,
   mkQuad (.namedNode github_url) (.namedNode (NFO ++ "fileUrl")) (.namedNode github_url) g]

/-- One optional frontmatter statement: `if key in metadata:
add_quad(file_uri, pred, Literal(metadata[key]))`. -/
def metaFieldQuads (metadata : Metadata) (key github_url pred g : String) :
    Except String (List Quad) :=
  match lookupMeta metadata key with
  | none => .ok []
  | some v => do
      let t ← pyLiteral v
      .ok [mkQuad (.namedNode github_url) (.namedNode pred) t g]

/-- The tag statements: one `dcterms:subject` per tag, emitted only when
`"tags" in metadata and isinstance(metadata["tags"], list)`. -/
def tagQuads (metadata : Metadata) (github_url g : String) : List Quad :=
  match lookupMeta metadata "tags" with
  | some (.strList vs) =>
      vs.map (fun tag =>
        mkQuad (.namedNode github_url) (.namedNode (DCTERMS ++ "subject")) (.literal tag none) g)
  | _ => []

/-- All frontmatter statements, in source order: title, author, created,
tags, slop_id, familiar. -/
def frontmatterQuads (metadata : Metadata) (github_url g : String) :
    Except String (List Quad) := do
  let titleQs ← metaFieldQuads metadata "title" github_url (DCTERMS ++ "title") g
  let authorQs ← metaFieldQuads metadata "author" github_url (DCTERMS ++ "creator") g
  let createdQs ← metaFieldQuads metadata "created" github_url (DCTERMS ++ "created") g
  let tagQs := tagQuads metadata github_url g
  let slopIdQs ← metaFieldQuads metadata "slop_id" github_url (SLOP ++ "slopId") g
  let familiarQs ← metaFieldQuads metadata "familiar" github_url (SLOP ++ "familiar") g
  .ok (titleQs ++ authorQs ++ createdQs ++ tagQs ++ slopIdQs ++ familiarQs)

/-- The per-entity statements of the extraction loop, in source order:
type, display name, mentions link, confidence, then the line-start and
line-end statements each guarded by its own key test, then the
source-anchor URI guarded by both. -/
def entityQuads (github_url g : String) (entity : Entity) : List Quad :=
  let entity_uri := Term.namedNode (create_entity_uri entity.text)
  [mkQuad entity_uri (.namedNode (RDF ++ "type")) (.namedNode (KNOW ++ entity.label)) g,
   mkQuad entity_uri (.namedNode (SCHEMA ++ "name")) (.literal entity.text none) g,
   mkQuad (.namedNode github_url) (.namedNode (SLOP ++ "mentions")) entity_uri g,
   mkQuad entity_uri (.namedNode (SLOP ++ "confidence")) (.literal entity.score (some (XSD ++ "float"))) g]
  ++ (match entity.line_start with
      | some n =>
          [mkQuad entity_uri (.namedNode (SLOP ++ "lineStart"))
            (.literal (toString n) (some (XSD ++ "integer"))) g]
      | none => [])
  ++ (match entity.line_end with
      | some n =>
          [mkQuad entity_uri (.namedNode (SLOP ++ "lineEnd"))
            (.literal (toString n) (some (XSD ++ "integer"))) g]
      | none => [])
  ++ (match entity.line_start, entity.line_end with
      | some line_start, some line_end =>
          [mkQuad entity_uri (.namedNode (SLOP ++ "sourceUrl"))
            (.namedNode (if line_start = line_end
              then github_url ++ "#L" ++ toString line_start
              else github_url ++ "#L" ++ toString line_start ++ "-L" ++ toString line_end)) g]
      | _, _ => [])

/-- `build_rdf_graph`: the quads in emission order together with the
graph URI.  A `TypeError` raised by a `Literal` construction aborts the
whole build, which the `Except` propagates. -/
def build_rdf_graph (filepath github_url : String) (entities : List Entity)
    (metadata : Metadata) : Except String (List Quad × String) := do
  let graph_uri := graphUriOf github_url metadata
  let frontQs ← frontmatterQuads metadata github_url graph_uri
  .ok (fileQuadsOf filepath github_url graph_uri ++ frontQs
        ++ entities.flatMap (entityQuads github_url graph_uri), graph_uri)

/-! ### `quads_to_sparql_insert` (src/extraction.py, lines 241–267)

`quad.graph_name` is modelled as the optional graph URI (`None` for the
default graph) and `.n3()` as the N-Triples token of a term, the
semantics the source assumes of the statement library. -/

/-- N-Triples escaping inside a quoted literal. -/
def n3Escape (s : String) : String :=
  String.mk (s.toList.map (fun c =>
    if c = '\\' then ['\\', '\\']
    else if c = '"' then ['\\', '"']
    else if c = '\n' then ['\\', 'n']
    else if c = '\r' then ['\\', 'r']
    else [c])).flatten

/-- `.n3()`: the N-Triples serialization of a term. -/
def Term.n3 : Term → String
  | .namedNode u => "<" ++ u ++ ">"
  | .literal v none => "\"" ++ n3Escape v ++ "\""
  | .literal v (some dt) => "\"" ++ n3Escape v ++ "\"^^<" ++ dt ++ ">"

/-- The triple line built for each quad:
`f"{quad.subject.n3()} {quad.predicate.n3()} {quad.object.n3()} ."`. -/
def tripleString (q : Quad) : String :=
  q.subject.n3 ++ " " ++ q.predicate.n3 ++ " " ++ q.object.n3 ++ " ."

/-- `graphs[graph_uri].append(triple)` on a `defaultdict(list)` kept in
key-insertion order. -/
def insertGrouped (key : Option String) (t : String) :
    List (Option String × List String) → List (Option String × List String)
  | [] => [(key, [t])]
  | (k, ts) :: rest =>
      if k = key then (k, ts ++ [t]) :: rest else (k, ts) :: insertGrouped key t rest

/-- The grouping loop of `quads_to_sparql_insert`. -/
def groupQuads (quads : List Quad) : List (Option String × List String) :=
  quads.foldl (fun acc q => insertGrouped q.graph (tripleString q) acc) []

/-- `quads_to_sparql_insert`: the SPARQL `INSERT DATA` payload; groups
with a named graph get a `GRAPH` wrapper, default-graph triples are
emitted directly. -/
def quads_to_sparql_insert (quads : List Quad) : String :=
  let graphs := groupQuads quads
  let parts := graphs.foldl (fun parts g =>
    match g.1 with
    | some u =>
        (parts ++ ["  GRAPH <" ++ u ++ "> \x7b"]) ++ g.2.map (fun t => "    " ++ t) ++ ["  \x7d"]
    | none => parts ++ g.2.map (fun t => "  " ++ t)) ["INSERT DATA \x7b"]
  String.intercalate "\n" (parts ++ ["\x7d"])

/-- The lines one group contributes, written the way the specification
describes the serializer (used to state the serializer theorem). -/
def graphBlock (g : Option String × List String) : List String :=
  match g.1 with
  | some u => ("  GRAPH <" ++ u ++ "> \x7b") :: (g.2.map (fun t => "    " ++ t) ++ ["  \x7d"])
  | none => g.2.map (fun t => "  " ++ t)

/-- The triples recorded for one graph key by the grouping loop. -/
def groupLookup (key : Option String) : List (Option String × List String) → List String
  | [] => []
  | (k, ts) :: rest => if k = key then ts else groupLookup key rest

/-! ### `post_slop` (src/server.py, lines 27–131)

`post_slop` drives five external stages: the repository check, the file
write, the git commit-and-push, the entity extraction and the HTTP sync;
it also reads the configuration, a fresh UUID and the clock.  All those
effects are collected in a `PipelineEnv` oracle, and the embedding
returns the reply string together with the trace of external calls
actually performed.  The extraction result comes from the external NER
engine, and the serialize stage calls `graph_to_ntriples`, a function
the repository no longer defines (only its import in `src/server.py`
remains), so both stage outcomes are environment-supplied; the claims
about `post_slop` concern only its staged control flow. -/

/-- The external calls one `post_slop` invocation can perform. -/
inductive ExtCall where
  | repoCheck
  | fileWrite
  | gitCommitPush
  | gitFileUrl
  | nerExtract
  | rdfBuild
  | httpSync
deriving DecidableEq, Repr

/-- Outcomes of the effectful steps of one `post_slop` invocation. -/
structure PipelineEnv where
  /-- `repo_manager.ensure_repo_exists()` -/
  ensure_repo : Bool × String
  /-- `str(uuid.uuid4())` -/
  slop_id : String
  /-- `datetime.datetime.now().isoformat()` -/
  timestamp : String
  /-- `config.get("github_username", "unknown")` -/
  author : String
  /-- `config.get("github_repo")` -/
  github_repo : String
  /-- exception raised by `file_path.write_text`, if any -/
  write_error : Option String
  /-- `repo_manager.commit_and_push(file_path, commit_message)` -/
  commit_push : Bool × String
  /-- `repo_manager.get_file_github_url(file_path)` -/
  github_file_url : Option String
  /-- `extract_entities(full_content, threshold=0.5)` -/
  extract_result : Except String (List Entity)
  /-- `build_rdf_graph(...)` then `graph_to_ntriples(graph)` -/
  build_result : Except String String
  /-- the HTTP POST of the update plus `raise_for_status()` -/
  sync_result : Except String Unit
  /-- `get_graph_server_url()` -/
  graph_server : String
deriving Repr

/-- `f"{slop_id[:8]}.md"`. -/
def filenameOf (env : PipelineEnv) : String :=
  String.mk (env.slop_id.toList.take 8) ++ ".md"

/-- The GitHub URL used in the replies: `get_file_github_url` when it
returns one, else the `main`-branch fallback. -/
def githubUrlOf (env : PipelineEnv) : String :=
  match env.github_file_url with
  | some u => u
  | none => "https://github.com/" ++ env.github_repo ++ "/blob/main/" ++ filenameOf env

/-- The frontmatter block `post_slop` prepends to the content. -/
def frontmatterOf (title : String) (tags : List String) (env : PipelineEnv) : String :=
  "---\n" ++ "title: " ++ title ++ "\n"
    ++ "author: " ++ env.author ++ "\n"
    ++ "created: " ++ env.timestamp ++ "\n"
    ++ "tags: [" ++ String.intercalate ", " tags ++ "]\n"
    ++ "slop_id: " ++ env.slop_id ++ "\n"
    ++ "---\n\n"

/-- `post_slop`: the staged publish pipeline.  Returns the reply string
and the ordered trace of external calls performed.  The reply strings
reproduce the exact characters of `src/server.py` (which stores its
emoji prefixes in a doubly-encoded form). -/
def post_slop (title content : String) (tags : Option (List String))
    (env : PipelineEnv) : String × List ExtCall :=
  if !env.ensure_repo.1 then (env.ensure_repo.2, [.repoCheck])
  else
    let tags := match tags with
      | none => ["slop"]
      | some [] => ["slop"]
      | some ts => ts
    let _full_content := frontmatterOf title tags env ++ content
    match env.write_error with
    | some e => ("âŒ Failed to write slop file: " ++ e, [.repoCheck, .fileWrite])
    | none =>
      if !env.commit_push.1 then
        ("âŒ Git operation failed: " ++ env.commit_push.2,
         [.repoCheck, .fileWrite, .gitCommitPush])
      else
        let git_msg := env.commit_push.2
        let github_url := githubUrlOf env
        match env.extract_result with
        | .error e =>
            ("âš ï¸ Slop posted but extraction failed: " ++ e ++ "\n"
               ++ git_msg ++ "\nðŸ“„ " ++ github_url,
             [.repoCheck, .fileWrite, .gitCommitPush, .gitFileUrl, .nerExtract])
        | .ok entities =>
          match env.build_result with
          | .error e =>
              ("âš ï¸ Slop posted but RDF building failed: " ++ e ++ "\n"
                 ++ git_msg ++ "\nðŸ“„ " ++ github_url,
               [.repoCheck, .fileWrite, .gitCommitPush, .gitFileUrl, .nerExtract, .rdfBuild])
          | .ok _ntriples =>
            match env.sync_result with
            | .error e =>
                ("âš ï¸ Slop posted but graph update failed: " ++ e ++ "\n"
                   ++ git_msg ++ "\nðŸ“„ " ++ github_url,
                 [.repoCheck, .fileWrite, .gitCommitPush, .gitFileUrl,
                  .nerExtract, .rdfBuild, .httpSync])
            | .ok _ =>
                ("ðŸŽ‰ Slop posted successfully!\n\n"
                   ++ "ðŸ“„ File: " ++ github_url ++ "\n"
                   ++ "ðŸ§  Extracted " ++ toString entities.length ++ " entities\n"
                   ++ "ðŸŒ Published to " ++ env.graph_server ++ "\n"
                   ++ "ðŸ†” Slop ID: " ++ String.mk (env.slop_id.toList.take 8),
                 [.repoCheck, .fileWrite, .gitCommitPush, .gitFileUrl,
                  .nerExtract, .rdfBuild, .httpSync])

/-! ## Theorems -/

/-- **C7**: for every text, `char_to_line text 0 = 1`;
`char_to_line text (len text)` is the newline count plus 1; every
negative offset maps to line 1; and every offset at or beyond the text
length maps to the last line. -/
theorem char_to_line_contract (text : List Char) :
    char_to_line text 0 = 1 ∧
    char_to_line text (text.length : Int) = text.count '\n' + 1 ∧
    (∀ char_pos : Int, char_pos < 0 → char_to_line text char_pos = 1) ∧
    (∀ char_pos : Int, (text.length : Int) ≤ char_pos →
      char_to_line text char_pos = text.count '\n' + 1) := by
  refine ⟨?_, ?_, ?_, ?_⟩
  · unfold char_to_line
    rw [if_neg (by omega : ¬ ((0 : Int) < 0))]
    by_cases h2 : (text.length : Int) ≤ 0
    · rw [if_pos h2]
      have h0 : text.length = 0 := by omega
      rw [List.length_eq_zero] at h0
      subst h0
      rfl
    · rw [if_neg h2]
      simp
  · unfold char_to_line
    rw [if_neg (by omega : ¬ ((text.length : Int) < 0)),
        if_pos (le_refl (text.length : Int))]
  · intro p hp
    unfold char_to_line
    rw [if_pos hp]
  · intro p hp
    unfold char_to_line
    rw [if_neg (by omega : ¬ (p < 0)), if_pos hp]

/-- Witness for C7 at the text `"a\nb"`. -/
theorem char_to_line_contract_witness :
    char_to_line "a\nb".toList 0 = 1 ∧
    char_to_line "a\nb".toList (-7) = 1 ∧
    char_to_line "a\nb".toList 9 = "a\nb".toList.count '\n' + 1 :=
  ⟨(char_to_line_contract "a\nb".toList).1,
   (char_to_line_contract "a\nb".toList).2.2.1 (-7) (by decide),
   (char_to_line_contract "a\nb".toList).2.2.2 9 (by decide)⟩

/-- **C8**: `char_to_line` is monotonic non-decreasing in the character
offset. -/
theorem char_to_line_mono (text : List Char) (i j : Int) (hij : i ≤ j) :
    char_to_line text i ≤ char_to_line text j := by
  rcases lt_or_le i 0 with hi | hi
  · unfold char_to_line
    rw [if_pos hi]
    split_ifs <;> omega
  · rcases le_or_lt (text.length : Int) i with hi2 | hi2
    · have hj2 : (text.length : Int) ≤ j := le_trans hi2 hij
      unfold char_to_line
      rw [if_neg (by omega : ¬ (i < 0)), if_pos hi2,
          if_neg (by omega : ¬ (j < 0)), if_pos hj2]
    · rcases le_or_lt (text.length : Int) j with hj2 | hj2
      · unfold char_to_line
        rw [if_neg (by omega : ¬ (i < 0)), if_neg (by omega : ¬ ((text.length : Int) ≤ i)),
            if_neg (by omega : ¬ (j < 0)), if_pos hj2]
        have hc := (List.take_sublist i.toNat text).count_le '\n'
        omega
      · unfold char_to_line
        rw [if_neg (by omega : ¬ (i < 0)), if_neg (by omega : ¬ ((text.length : Int) ≤ i)),
            if_neg (by omega : ¬ (j < 0)), if_neg (by omega : ¬ ((text.length : Int) ≤ j))]
        have hsub : List.Sublist (text.take i.toNat) (text.take j.toNat) := by
          have h1 : i.toNat ≤ j.toNat := by omega
          have h2 := List.take_sublist i.toNat (text.take j.toNat)
          rwa [List.take_take, min_eq_left h1] at h2
        have hc := hsub.count_le '\n'
        omega

/-- Witness for C8 at the text `"ab\ncd"`, offsets 1 and 4. -/
theorem char_to_line_mono_witness :
    (1 : Int) ≤ 4 ∧ char_to_line "ab\ncd".toList 1 ≤ char_to_line "ab\ncd".toList 4 :=
  ⟨by decide, char_to_line_mono "ab\ncd".toList 1 4 (by decide)⟩

set_option maxRecDepth 400000 in
/-- **C1** fails as stated: the URI keeps only the first 8 hex characters
of the MD5 digest and a 50-character slug, so two texts with different
normalized forms can share a URI.  These two 55-character texts agree on
the first 50 characters (hence on the slug) and collide on the truncated
digest. -/
theorem create_entity_uri_collision :
    create_entity_uri "aaaaaaaaaaaaaaaaaaaaaaaaaaaaaaaaaaaaaaaaaaaaaaaaaa30174"
      = create_entity_uri "aaaaaaaaaaaaaaaaaaaaaaaaaaaaaaaaaaaaaaaaaaaaaaaaaa73846" ∧
    pyNormalize "aaaaaaaaaaaaaaaaaaaaaaaaaaaaaaaaaaaaaaaaaaaaaaaaaa30174"
      ≠ pyNormalize "aaaaaaaaaaaaaaaaaaaaaaaaaaaaaaaaaaaaaaaaaaaaaaaaaa73846" := by
  constructor
  · decide
  · decide

/-- **C1 (amended)**: identical normalized text always yields an
identical URI — `create_entity_uri` is a function of
`lowercase(trim(text))` alone.  (The converse direction of the original
claim is refuted by `create_entity_uri_collision`.) -/
theorem create_entity_uri_respects_normalization (a b : String)
    (h : pyNormalize a = pyNormalize b) :
    create_entity_uri a = create_entity_uri b := by
  unfold create_entity_uri
  rw [h]

/-- Witness for the amended C1 at `"Alice "` and `"alice"`. -/
theorem create_entity_uri_respects_normalization_witness :
    pyNormalize "Alice " = pyNormalize "alice" ∧
    create_entity_uri "Alice " = create_entity_uri "alice" :=
  ⟨by decide, create_entity_uri_respects_normalization "Alice " "alice" (by decide)⟩

/-! ### Helper lemmas about the `Except` plumbing of the graph builder -/

theorem exceptBind_ok {α β : Type} (a : α) (f : α → Except String β) :
    ((Except.ok a : Except String α) >>= f) = f a := rfl

theorem exceptBind_error {α β : Type} (e : String) (f : α → Except String β) :
    ((Except.error e : Except String α) >>= f) = Except.error e := rfl

/-- Case analysis of one optional frontmatter statement. -/
theorem metaFieldQuads_ok_cases (metadata : Metadata) (key github_url pred g : String)
    (qs : List Quad) (h : metaFieldQuads metadata key github_url pred g = .ok qs) :
    (lookupMeta metadata key = none ∧ qs = []) ∨
    (∃ v, lookupMeta metadata key = some (.str v) ∧
      qs = [mkQuad (.namedNode github_url) (.namedNode pred) (.literal v none) g]) := by
  simp only [metaFieldQuads] at h
  cases hl : lookupMeta metadata key with
  | none =>
      rw [hl] at h
      simp only [Except.ok.injEq] at h
      exact Or.inl ⟨rfl, h.symm⟩
  | some v =>
      rw [hl] at h
      cases v with
      | str s =>
          simp only [pyLiteral, exceptBind_ok, Except.ok.injEq] at h
          exact Or.inr ⟨s, rfl, h.symm⟩
      | strList vs =>
          simp only [pyLiteral, exceptBind_error] at h
          exact absurd h (by simp)

/-- Decomposition of the frontmatter statements at a successful build. -/
theorem frontmatterQuads_ok_decomp (metadata : Metadata) (github_url g : String)
    (fq : List Quad) (h : frontmatterQuads metadata github_url g = .ok fq) :
    ∃ t a c s f,
      metaFieldQuads metadata "title" github_url (DCTERMS ++ "title") g = .ok t ∧
      metaFieldQuads metadata "author" github_url (DCTERMS ++ "creator") g = .ok a ∧
      metaFieldQuads metadata "created" github_url (DCTERMS ++ "created") g = .ok c ∧
      metaFieldQuads metadata "slop_id" github_url (SLOP ++ "slopId") g = .ok s ∧
      metaFieldQuads metadata "familiar" github_url (SLOP ++ "familiar") g = .ok f ∧
      fq = t ++ a ++ c ++ tagQuads metadata github_url g ++ s ++ f := by
  simp only [frontmatterQuads] at h
  cases h1 : metaFieldQuads metadata "title" github_url (DCTERMS ++ "title") g with
  | error e => rw [h1, exceptBind_error] at h; exact absurd h (by simp)
  | ok t =>
  rw [h1, exceptBind_ok] at h
  cases h2 : metaFieldQuads metadata "author" github_url (DCTERMS ++ "creator") g with
  | error e => rw [h2, exceptBind_error] at h; exact absurd h (by simp)
  | ok a =>
  rw [h2, exceptBind_ok] at h
  cases h3 : metaFieldQuads metadata "created" github_url (DCTERMS ++ "created") g with
  | error e => rw [h3, exceptBind_error] at h; exact absurd h (by simp)
  | ok c =>
  rw [h3, exceptBind_ok] at h
  cases h4 : metaFieldQuads metadata "slop_id" github_url (SLOP ++ "slopId") g with
  | error e => rw [h4, exceptBind_error] at h; exact absurd h (by simp)
  | ok s =>
  rw [h4, exceptBind_ok] at h
  cases h5 : metaFieldQuads metadata "familiar" github_url (SLOP ++ "familiar") g with
  | error e => rw [h5, exceptBind_error] at h; exact absurd h (by simp)
  | ok f =>
  rw [h5, exceptBind_ok] at h
  simp only [Except.ok.injEq] at h
  exact ⟨t, a, c, s, f, rfl, rfl, rfl, rfl, rfl, h.symm⟩

/-- Decomposition of a successful `build_rdf_graph` run. -/
theorem build_rdf_graph_ok_decomp (filepath github_url : String) (entities : List Entity)
    (metadata : Metadata) (qs : List Quad) (g : String)
    (h : build_rdf_graph filepath github_url entities metadata = .ok (qs, g)) :
    g = graphUriOf github_url metadata ∧
    ∃ fq, frontmatterQuads metadata github_url g = .ok fq ∧
      qs = fileQuadsOf filepath github_url g ++ fq
            ++ entities.flatMap (entityQuads github_url g) := by
  simp only [build_rdf_graph] at h
  cases hf : frontmatterQuads metadata github_url (graphUriOf github_url metadata) with
  | error e => rw [hf, exceptBind_error] at h; exact absurd h (by simp)
  | ok fq =>
      rw [hf, exceptBind_ok] at h
      simp only [Except.ok.injEq, Prod.mk.injEq] at h
      obtain ⟨hqs, hg⟩ := h
      subst hg
      exact ⟨rfl, fq, hf, hqs.symm⟩

/-! ### Component lemmas about the emitted statement groups -/

theorem fileQuadsOf_graph (filepath github_url g : String) :
    ∀ q ∈ fileQuadsOf filepath github_url g, q.graph = some g := by
  simp [fileQuadsOf, mkQuad]

theorem metaFieldQuads_graph (metadata : Metadata) (key github_url pred g : String)
    (qs : List Quad) (h : metaFieldQuads metadata key github_url pred g = .ok qs) :
    ∀ q ∈ qs, q.graph = some g := by
  rcases metaFieldQuads_ok_cases _ _ _ _ _ _ h with ⟨_, rfl⟩ | ⟨v, _, rfl⟩ <;>
    simp [mkQuad]

theorem tagQuads_predicate (metadata : Metadata) (github_url g : String) :
    ∀ q ∈ tagQuads metadata github_url g,
      q.predicate = .namedNode (DCTERMS ++ "subject") ∧ q.graph = some g := by
  cases hl : lookupMeta metadata "tags" with
  | none => simp [tagQuads, hl]
  | some v =>
      cases v with
      | str s => simp [tagQuads, hl]
      | strList vs => simp [tagQuads, hl, mkQuad]

theorem entityQuads_graph (github_url g : String) (e : Entity) :
    ∀ q ∈ entityQuads github_url g e, q.graph = some g := by
  rcases e with ⟨t, l, sc, ls, le⟩
  rcases ls with _ | n <;> rcases le with _ | m <;> simp [entityQuads, mkQuad]

theorem frontmatterQuads_graph (metadata : Metadata) (github_url g : String)
    (fq : List Quad) (h : frontmatterQuads metadata github_url g = .ok fq) :
    ∀ q ∈ fq, q.graph = some g := by
  obtain ⟨t, a, c, s, f, h1, h2, h3, h4, h5, rfl⟩ :=
    frontmatterQuads_ok_decomp _ _ _ _ h
  intro q hq
  simp only [List.mem_append] at hq
  rcases hq with ((((hq | hq) | hq) | hq) | hq) | hq
  · exact metaFieldQuads_graph _ _ _ _ _ _ h1 q hq
  · exact metaFieldQuads_graph _ _ _ _ _ _ h2 q hq
  · exact metaFieldQuads_graph _ _ _ _ _ _ h3 q hq
  · exact (tagQuads_predicate _ _ _ q hq).2
  · exact metaFieldQuads_graph _ _ _ _ _ _ h4 q hq
  · exact metaFieldQuads_graph _ _ _ _ _ _ h5 q hq

theorem metaFieldQuads_countP_ne (metadata : Metadata) (key github_url pred g : String)
    (qs : List Quad) (h : metaFieldQuads metadata key github_url pred g = .ok qs)
    (T : Term) (hne : Term.namedNode pred ≠ T) :
    qs.countP (fun q => q.predicate = T) = 0 := by
  rcases metaFieldQuads_ok_cases _ _ _ _ _ _ h with ⟨_, rfl⟩ | ⟨v, _, rfl⟩
  · rfl
  · simp [mkQuad, List.countP_cons, hne]

theorem metaFieldQuads_countP_self (metadata : Metadata) (key github_url pred g : String)
    (qs : List Quad) (h : metaFieldQuads metadata key github_url pred g = .ok qs) :
    qs.countP (fun q => q.predicate = Term.namedNode pred)
      = if (lookupMeta metadata key).isSome then 1 else 0 := by
  rcases metaFieldQuads_ok_cases _ _ _ _ _ _ h with ⟨hl, rfl⟩ | ⟨v, hl, rfl⟩ <;>
    simp [hl, mkQuad, List.countP_cons]

theorem tagQuads_countP_ne (metadata : Metadata) (github_url g : String)
    (T : Term) (hne : Term.namedNode (DCTERMS ++ "subject") ≠ T) :
    (tagQuads metadata github_url g).countP (fun q => q.predicate = T) = 0 := by
  rw [List.countP_eq_zero]
  intro q hq
  have hp := (tagQuads_predicate _ _ _ q hq).1
  simp [hp, hne]

theorem entityQuads_countP_familiar (github_url g : String) (e : Entity) :
    (entityQuads github_url g e).countP
      (fun q => q.predicate = Term.namedNode (SLOP ++ "familiar")) = 0 := by
  rcases e with ⟨t, l, sc, ls, le⟩
  rcases ls with _ | n <;> rcases le with _ | m <;>
    simp [entityQuads, mkQuad, List.countP_cons, List.countP_append] <;> decide

theorem countP_flatMap_zero {α : Type} (l : List α) (p : Quad → Bool)
    (gen : α → List Quad) (h : ∀ e, (gen e).countP p = 0) :
    (l.flatMap gen).countP p = 0 := by
  induction l with
  | nil => rfl
  | cons e es ih => simp [List.flatMap_cons, List.countP_append, h, ih]

/-- **C6**: every quad of one build carries the single named graph
`https://slop.at/graph/{author}/{repo_name}/{slop_id}`, a deterministic
function of the author, the repository name and the slop id. -/
theorem build_rdf_graph_single_graph (filepath github_url : String)
    (entities : List Entity) (metadata : Metadata) (qs : List Quad) (g : String)
    (h : build_rdf_graph filepath github_url entities metadata = .ok (qs, g)) :
    g = graphUriOf github_url metadata ∧
    graphUriOf github_url metadata
      = "https://slop.at/graph/"
          ++ ((lookupMeta metadata "author").getD (.str "unknown")).pyStr ++ "/"
          ++ repoNameOf github_url ++ "/"
          ++ ((lookupMeta metadata "slop_id").getD (.str "unknown")).pyStr ∧
    ∀ q ∈ qs, q.graph = some g := by
  obtain ⟨hg, fq, hf, rfl⟩ := build_rdf_graph_ok_decomp _ _ _ _ _ _ h
  refine ⟨hg, ?_, ?_⟩
  · rfl
  · intro q hq
    simp only [List.mem_append] at hq
    rcases hq with (hq | hq) | hq
    · exact fileQuadsOf_graph _ _ _ q hq
    · exact frontmatterQuads_graph _ _ _ _ hf q hq
    · rw [List.mem_flatMap] at hq
      obtain ⟨e, _, hqe⟩ := hq
      exact entityQuads_graph _ _ _ q hqe

set_option maxRecDepth 400000 in
/-- Witness for C6 at a concrete build. -/
theorem build_rdf_graph_single_graph_witness :
    graphUriOf "https://github.com/u/r/blob/main/f.md"
        [("author", MetaVal.str "al"), ("slop_id", MetaVal.str "x1")]
      = graphUriOf "https://github.com/u/r/blob/main/f.md"
          [("author", MetaVal.str "al"), ("slop_id", MetaVal.str "x1")] ∧
    graphUriOf "https://github.com/u/r/blob/main/f.md"
        [("author", MetaVal.str "al"), ("slop_id", MetaVal.str "x1")]
      = "https://slop.at/graph/"
          ++ ((lookupMeta [("author", MetaVal.str "al"), ("slop_id", MetaVal.str "x1")]
                "author").getD (.str "unknown")).pyStr ++ "/"
          ++ repoNameOf "https://github.com/u/r/blob/main/f.md" ++ "/"
          ++ ((lookupMeta [("author", MetaVal.str "al"), ("slop_id", MetaVal.str "x1")]
                "slop_id").getD (.str "unknown")).pyStr ∧
    ∀ q ∈ fileQuadsOf "f.md" "https://github.com/u/r/blob/main/f.md"
          (graphUriOf "https://github.com/u/r/blob/main/f.md"
            [("author", MetaVal.str "al"), ("slop_id", MetaVal.str "x1")])
        ++ [mkQuad (.namedNode "https://github.com/u/r/blob/main/f.md")
              (.namedNode (DCTERMS ++ "creator")) (.literal "al" none)
              (graphUriOf "https://github.com/u/r/blob/main/f.md"
                [("author", MetaVal.str "al"), ("slop_id", MetaVal.str "x1")]),
            mkQuad (.namedNode "https://github.com/u/r/blob/main/f.md")
              (.namedNode (SLOP ++ "slopId")) (.literal "x1" none)
              (graphUriOf "https://github.com/u/r/blob/main/f.md"
                [("author", MetaVal.str "al"), ("slop_id", MetaVal.str "x1")])]
        ++ ([] : List Entity).flatMap (entityQuads "https://github.com/u/r/blob/main/f.md"
              (graphUriOf "https://github.com/u/r/blob/main/f.md"
                [("author", MetaVal.str "al"), ("slop_id", MetaVal.str "x1")])),
      q.graph = some (graphUriOf "https://github.com/u/r/blob/main/f.md"
        [("author", MetaVal.str "al"), ("slop_id", MetaVal.str "x1")]) :=
  build_rdf_graph_single_graph "f.md" "https://github.com/u/r/blob/main/f.md" []
    [("author", MetaVal.str "al"), ("slop_id", MetaVal.str "x1")] _ _ rfl

/-- **C3**: building twice from identical inputs yields identical, hence
set-identical, statement collections. -/
theorem build_rdf_graph_deterministic (filepath github_url : String)
    (entities : List Entity) (metadata : Metadata)
    (qs₁ qs₂ : List Quad) (g₁ g₂ : String)
    (h₁ : build_rdf_graph filepath github_url entities metadata = .ok (qs₁, g₁))
    (h₂ : build_rdf_graph filepath github_url entities metadata = .ok (qs₂, g₂)) :
    qs₁ = qs₂ ∧ g₁ = g₂ ∧ ∀ q : Quad, q ∈ qs₁ ↔ q ∈ qs₂ := by
  rw [h₁] at h₂
  simp only [Except.ok.injEq, Prod.mk.injEq] at h₂
  obtain ⟨rfl, rfl⟩ := h₂
  exact ⟨rfl, rfl, fun q => Iff.rfl⟩

set_option maxRecDepth 400000 in
/-- Witness for C3 at a concrete build evaluated twice. -/
theorem build_rdf_graph_deterministic_witness :
    fileQuadsOf "f.md" "https://github.com/u/r/blob/main/f.md"
        (graphUriOf "https://github.com/u/r/blob/main/f.md" [])
      ++ []
      ++ ([(⟨"bob", "Person", "0.5", some 2, some 3⟩ : Entity)]).flatMap
          (entityQuads "https://github.com/u/r/blob/main/f.md"
            (graphUriOf "https://github.com/u/r/blob/main/f.md" []))
      = fileQuadsOf "f.md" "https://github.com/u/r/blob/main/f.md"
          (graphUriOf "https://github.com/u/r/blob/main/f.md" [])
        ++ []
        ++ ([(⟨"bob", "Person", "0.5", some 2, some 3⟩ : Entity)]).flatMap
            (entityQuads "https://github.com/u/r/blob/main/f.md"
              (graphUriOf "https://github.com/u/r/blob/main/f.md" [])) :=
  (build_rdf_graph_deterministic "f.md" "https://github.com/u/r/blob/main/f.md"
    [⟨"bob", "Person", "0.5", some 2, some 3⟩] [] _ _ _ _ rfl rfl).1

/-- **C10**: a familiar key in the metadata yields exactly one statement
with predicate `slop:familiar` carrying the value as a literal; without
the key no such statement appears. -/
theorem build_rdf_graph_familiar (filepath github_url : String)
    (entities : List Entity) (metadata : Metadata) (qs : List Quad) (g : String)
    (h : build_rdf_graph filepath github_url entities metadata = .ok (qs, g)) :
    qs.countP (fun q => q.predicate = Term.namedNode (SLOP ++ "familiar"))
      = (if (lookupMeta metadata "familiar").isSome then 1 else 0) ∧
    ∀ v, lookupMeta metadata "familiar" = some (.str v) →
      mkQuad (.namedNode github_url) (.namedNode (SLOP ++ "familiar"))
        (.literal v none) g ∈ qs := by
  obtain ⟨hg, fq, hf, rfl⟩ := build_rdf_graph_ok_decomp _ _ _ _ _ _ h
  subst hg
  obtain ⟨t, a, c, s, f, h1, h2, h3, h4, h5, rfl⟩ :=
    frontmatterQuads_ok_decomp _ _ _ _ hf
  constructor
  · rw [List.countP_append, List.countP_append, List.countP_append,
        List.countP_append, List.countP_append, List.countP_append,
        List.countP_append]
    rw [metaFieldQuads_countP_ne _ _ _ _ _ _ h1 _ (by decide),
        metaFieldQuads_countP_ne _ _ _ _ _ _ h2 _ (by decide),
        metaFieldQuads_countP_ne _ _ _ _ _ _ h3 _ (by decide),
        metaFieldQuads_countP_ne _ _ _ _ _ _ h4 _ (by decide),
        tagQuads_countP_ne _ _ _ _ (by decide),
        metaFieldQuads_countP_self _ _ _ _ _ _ h5,
        countP_flatMap_zero _ _ _ (entityQuads_countP_familiar _ _)]
    have hfile : (fileQuadsOf filepath github_url
        (graphUriOf github_url metadata)).countP
        (fun q => q.predicate = Term.namedNode (SLOP ++ "familiar")) = 0 := by
      simp [fileQuadsOf, mkQuad, List.countP_cons, List.countP_nil]
      decide
    rw [hfile]
    simp
  · intro v hv
    rcases metaFieldQuads_ok_cases _ _ _ _ _ _ h5 with ⟨hl, rfl⟩ | ⟨v₂, hl, rfl⟩
    · rw [hv] at hl
      exact absurd hl (by simp)
    · rw [hv] at hl
      simp only [Option.some.injEq, MetaVal.str.injEq] at hl
      subst hl
      simp [List.mem_append]

set_option maxRecDepth 400000 in
/-- Witness for C10 at a concrete build with a familiar entry. -/
theorem build_rdf_graph_familiar_witness :
    (fileQuadsOf "f.md" "https://github.com/u/r/blob/main/f.md"
          (graphUriOf "https://github.com/u/r/blob/main/f.md"
            [("familiar", MetaVal.str "cat")])
        ++ [mkQuad (.namedNode "https://github.com/u/r/blob/main/f.md")
              (.namedNode (SLOP ++ "familiar")) (.literal "cat" none)
              (graphUriOf "https://github.com/u/r/blob/main/f.md"
                [("familiar", MetaVal.str "cat")])]
        ++ ([] : List Entity).flatMap (entityQuads "https://github.com/u/r/blob/main/f.md"
              (graphUriOf "https://github.com/u/r/blob/main/f.md"
                [("familiar", MetaVal.str "cat")]))).countP
        (fun q => q.predicate = Term.namedNode (SLOP ++ "familiar"))
      = (if (lookupMeta [("familiar", MetaVal.str "cat")] "familiar").isSome
          then 1 else 0) ∧
    ∀ v, lookupMeta [("familiar", MetaVal.str "cat")] "familiar"
        = some (.str v) →
      mkQuad (.namedNode "https://github.com/u/r/blob/main/f.md")
          (.namedNode (SLOP ++ "familiar")) (.literal v none)
          (graphUriOf "https://github.com/u/r/blob/main/f.md"
            [("familiar", MetaVal.str "cat")])
        ∈ fileQuadsOf "f.md" "https://github.com/u/r/blob/main/f.md"
            (graphUriOf "https://github.com/u/r/blob/main/f.md"
              [("familiar", MetaVal.str "cat")])
          ++ [mkQuad (.namedNode "https://github.com/u/r/blob/main/f.md")
                (.namedNode (SLOP ++ "familiar")) (.literal "cat" none)
                (graphUriOf "https://github.com/u/r/blob/main/f.md"
                  [("familiar", MetaVal.str "cat")])]
          ++ ([] : List Entity).flatMap
              (entityQuads "https://github.com/u/r/blob/main/f.md"
                (graphUriOf "https://github.com/u/r/blob/main/f.md"
                  [("familiar", MetaVal.str "cat")])) :=
  build_rdf_graph_familiar "f.md" "https://github.com/u/r/blob/main/f.md" []
    [("familiar", MetaVal.str "cat")] _ _ rfl

set_option maxRecDepth 400000 in
/-- **C2** fails as stated: an entity whose record has `line_start` but
no `line_end` still gets a line-start statement — the code guards
`lineStart` and `lineEnd` each by its own key alone, and only the
source-anchor by both.  Here the single entity has `line_end` absent,
yet the built graph contains one `slop:lineStart` statement (and no
`slop:sourceUrl` statement). -/
theorem line_span_counterexample :
    (build_rdf_graph "f.md" "https://github.com/u/r/blob/main/f.md"
        [⟨"alice", "Person", "0.9", some 3, none⟩] []).map
      (fun p => (p.1.countP
          (fun q => q.predicate = Term.namedNode (SLOP ++ "lineStart")),
        p.1.countP
          (fun q => q.predicate = Term.namedNode (SLOP ++ "sourceUrl"))))
      = .ok (1, 0) := by
  rfl

/-- **C2 (amended)**: the line-start and line-end statements are each
emitted exactly when their own offset is present (carrying that offset),
and the source-anchor statement exactly when both are; an absent offset
suppresses only the statements that depend on it. -/
theorem line_span_emission (filepath github_url : String) (entities : List Entity)
    (metadata : Metadata) (qs : List Quad) (g : String)
    (h : build_rdf_graph filepath github_url entities metadata = .ok (qs, g)) :
    (∃ fq, frontmatterQuads metadata github_url g = .ok fq ∧
       qs = fileQuadsOf filepath github_url g ++ fq
             ++ entities.flatMap (entityQuads github_url g)) ∧
    ∀ e : Entity,
      ((entityQuads github_url g e).countP
          (fun q => q.predicate = Term.namedNode (SLOP ++ "lineStart"))
        = if e.line_start.isSome then 1 else 0) ∧
      ((entityQuads github_url g e).countP
          (fun q => q.predicate = Term.namedNode (SLOP ++ "lineEnd"))
        = if e.line_end.isSome then 1 else 0) ∧
      ((entityQuads github_url g e).countP
          (fun q => q.predicate = Term.namedNode (SLOP ++ "sourceUrl"))
        = if e.line_start.isSome ∧ e.line_end.isSome then 1 else 0) ∧
      (∀ n : Int, e.line_start = some n →
        mkQuad (Term.namedNode (create_entity_uri e.text))
          (Term.namedNode (SLOP ++ "lineStart"))
          (Term.literal (toString n) (some (XSD ++ "integer"))) g
          ∈ entityQuads github_url g e) ∧
      (∀ n : Int, e.line_end = some n →
        mkQuad (Term.namedNode (create_entity_uri e.text))
          (Term.namedNode (SLOP ++ "lineEnd"))
          (Term.literal (toString n) (some (XSD ++ "integer"))) g
          ∈ entityQuads github_url g e) := by
  obtain ⟨hg, fq, hf, rfl⟩ := build_rdf_graph_ok_decomp _ _ _ _ _ _ h
  refine ⟨⟨fq, hf, rfl⟩, ?_⟩
  intro e
  rcases e with ⟨t, l, sc, ls, le⟩
  refine ⟨?_, ?_, ?_, ?_, ?_⟩ <;>
    rcases ls with _ | n <;> rcases le with _ | m <;>
      simp [entityQuads, mkQuad, List.countP_cons, List.countP_append]
  all_goals decide

set_option maxRecDepth 400000 in
/-- Witness for the amended C2 at a concrete build whose entity has only
a line start. -/
theorem line_span_emission_witness :
    (∃ fq, frontmatterQuads [] "https://github.com/u/r/blob/main/f.md"
          (graphUriOf "https://github.com/u/r/blob/main/f.md" []) = .ok fq ∧
       fileQuadsOf "f.md" "https://github.com/u/r/blob/main/f.md"
           (graphUriOf "https://github.com/u/r/blob/main/f.md" [])
         ++ []
         ++ ([(⟨"alice", "Person", "0.9", some 3, none⟩ : Entity)]).flatMap
              (entityQuads "https://github.com/u/r/blob/main/f.md"
                (graphUriOf "https://github.com/u/r/blob/main/f.md" []))
         = fileQuadsOf "f.md" "https://github.com/u/r/blob/main/f.md"
             (graphUriOf "https://github.com/u/r/blob/main/f.md" [])
           ++ fq
           ++ ([(⟨"alice", "Person", "0.9", some 3, none⟩ : Entity)]).flatMap
                (entityQuads "https://github.com/u/r/blob/main/f.md"
                  (graphUriOf "https://github.com/u/r/blob/main/f.md" []))) ∧
    ∀ e : Entity,
      ((entityQuads "https://github.com/u/r/blob/main/f.md"
            (graphUriOf "https://github.com/u/r/blob/main/f.md" []) e).countP
          (fun q => q.predicate = Term.namedNode (SLOP ++ "lineStart"))
        = if e.line_start.isSome then 1 else 0) ∧
      ((entityQuads "https://github.com/u/r/blob/main/f.md"
            (graphUriOf "https://github.com/u/r/blob/main/f.md" []) e).countP
          (fun q => q.predicate = Term.namedNode (SLOP ++ "lineEnd"))
        = if e.line_end.isSome then 1 else 0) ∧
      ((entityQuads "https://github.com/u/r/blob/main/f.md"
            (graphUriOf "https://github.com/u/r/blob/main/f.md" []) e).countP
          (fun q => q.predicate = Term.namedNode (SLOP ++ "sourceUrl"))
        = if e.line_start.isSome ∧ e.line_end.isSome then 1 else 0) ∧
      (∀ n : Int, e.line_start = some n →
        mkQuad (Term.namedNode (create_entity_uri e.text))
          (Term.namedNode (SLOP ++ "lineStart"))
          (Term.literal (toString n) (some (XSD ++ "integer")))
          (graphUriOf "https://github.com/u/r/blob/main/f.md" [])
          ∈ entityQuads "https://github.com/u/r/blob/main/f.md"
              (graphUriOf "https://github.com/u/r/blob/main/f.md" []) e) ∧
      (∀ n : Int, e.line_end = some n →
        mkQuad (Term.namedNode (create_entity_uri e.text))
          (Term.namedNode (SLOP ++ "lineEnd"))
          (Term.literal (toString n) (some (XSD ++ "integer")))
          (graphUriOf "https://github.com/u/r/blob/main/f.md" [])
          ∈ entityQuads "https://github.com/u/r/blob/main/f.md"
              (graphUriOf "https://github.com/u/r/blob/main/f.md" []) e) :=
  line_span_emission "f.md" "https://github.com/u/r/blob/main/f.md"
    [⟨"alice", "Person", "0.9", some 3, none⟩] [] _ _ rfl

/-! ### Lemmas about the serializer's grouping loop -/

theorem groupLookup_insertGrouped (key k : Option String) (t : String)
    (acc : List (Option String × List String)) :
    groupLookup key (insertGrouped k t acc)
      = if key = k then groupLookup key acc ++ [t] else groupLookup key acc := by
  induction acc with
  | nil =>
      by_cases h : key = k
      · simp [insertGrouped, groupLookup, h]
      · simp [insertGrouped, groupLookup, h, Ne.symm h]
  | cons p rest ih =>
      obtain ⟨k', ts⟩ := p
      by_cases h1 : k' = k
      · subst h1
        by_cases h2 : key = k'
        · subst h2
          simp [insertGrouped, groupLookup]
        · simp [insertGrouped, groupLookup, h2, Ne.symm h2]
      · by_cases h2 : k' = key
        · subst h2
          simp [insertGrouped, groupLookup, h1, Ne.symm h1]
        · simp [insertGrouped, groupLookup, h1, h2, ih]

theorem keys_insertGrouped (k : Option String) (t : String)
    (acc : List (Option String × List String)) :
    (insertGrouped k t acc).map Prod.fst
      = if k ∈ acc.map Prod.fst then acc.map Prod.fst
        else acc.map Prod.fst ++ [k] := by
  induction acc with
  | nil => simp [insertGrouped]
  | cons p rest ih =>
      obtain ⟨k', ts⟩ := p
      by_cases h1 : k' = k
      · subst h1
        simp [insertGrouped]
      · simp only [insertGrouped, if_neg h1, List.map_cons, List.mem_cons]
        rw [ih]
        by_cases h2 : k ∈ rest.map Prod.fst
        · simp [h2, Ne.symm h1]
        · simp [h2, Ne.symm h1]

theorem groupQuads_go_lookup (qs : List Quad) (acc : List (Option String × List String))
    (key : Option String) :
    groupLookup key
        (qs.foldl (fun acc q => insertGrouped q.graph (tripleString q) acc) acc)
      = groupLookup key acc ++ (qs.filter (fun q => q.graph = key)).map tripleString := by
  induction qs generalizing acc with
  | nil => simp
  | cons q rest ih =>
      simp only [List.foldl_cons, List.filter_cons]
      rw [ih, groupLookup_insertGrouped]
      by_cases h : key = q.graph
      · simp [h, List.append_assoc]
      · simp [h, Ne.symm h]

theorem groupQuads_go_keys_mem (qs : List Quad)
    (acc : List (Option String × List String)) (key : Option String) :
    key ∈ (qs.foldl (fun acc q => insertGrouped q.graph (tripleString q) acc) acc).map
        Prod.fst
      ↔ key ∈ acc.map Prod.fst ∨ key ∈ qs.map (fun q => q.graph) := by
  induction qs generalizing acc with
  | nil => simp
  | cons q rest ih =>
      simp only [List.foldl_cons, List.map_cons, List.mem_cons]
      rw [ih, keys_insertGrouped]
      by_cases h : q.graph ∈ acc.map Prod.fst
      · simp only [if_pos h]
        constructor
        · rintro (ha | hr)
          · exact Or.inl ha
          · exact Or.inr (Or.inr hr)
        · rintro (ha | rfl | hr)
          · exact Or.inl ha
          · exact Or.inl h
          · exact Or.inr hr
      · simp only [if_neg h, List.mem_append, List.mem_singleton]
        constructor
        · rintro ((ha | rfl) | hr)
          · exact Or.inl ha
          · exact Or.inr (Or.inl rfl)
          · exact Or.inr (Or.inr hr)
        · rintro (ha | rfl | hr)
          · exact Or.inl (Or.inl ha)
          · exact Or.inl (Or.inr rfl)
          · exact Or.inr hr

theorem groupQuads_go_keys_nodup (qs : List Quad)
    (acc : List (Option String × List String))
    (h : (acc.map Prod.fst).Nodup) :
    ((qs.foldl (fun acc q => insertGrouped q.graph (tripleString q) acc) acc).map
        Prod.fst).Nodup := by
  induction qs generalizing acc with
  | nil => exact h
  | cons q rest ih =>
      simp only [List.foldl_cons]
      apply ih
      rw [keys_insertGrouped]
      by_cases hm : q.graph ∈ acc.map Prod.fst
      · simpa [hm] using h
      · simp only [if_neg hm]
        simp [List.nodup_append, h, hm]

theorem parts_foldl_eq (gs : List (Option String × List String)) (init : List String) :
    gs.foldl (fun parts g =>
        match g.1 with
        | some u =>
            (parts ++ ["  GRAPH <" ++ u ++ "> \x7b"]) ++ g.2.map (fun t => "    " ++ t)
              ++ ["  \x7d"]
        | none => parts ++ g.2.map (fun t => "  " ++ t)) init
      = init ++ gs.flatMap graphBlock := by
  induction gs generalizing init with
  | nil => simp
  | cons g rest ih =>
      obtain ⟨k, ts⟩ := g
      rw [List.foldl_cons, ih]
      cases k with
      | none => simp [graphBlock, List.append_assoc]
      | some u => simp [graphBlock, List.append_assoc]

/-- **C9**: the serializer renders `INSERT DATA` with one block per
graph group — `GRAPH <uri> \x7b ... \x7d` for a named graph, bare triples
for the default graph — where the groups partition the quads by their
graph: each key holds exactly the triples of the quads with that graph
(in order), each occurring graph appears exactly once, and the keys are
exactly the graphs occurring in the input. -/
theorem quads_to_sparql_insert_spec (quads : List Quad) :
    quads_to_sparql_insert quads
      = String.intercalate "\n"
          (["INSERT DATA \x7b"] ++ (groupQuads quads).flatMap graphBlock ++ ["\x7d"]) ∧
    ((groupQuads quads).map Prod.fst).Nodup ∧
    (∀ key, groupLookup key (groupQuads quads)
        = (quads.filter (fun q => q.graph = key)).map tripleString) ∧
    (∀ key, key ∈ (groupQuads quads).map Prod.fst
        ↔ key ∈ quads.map (fun q => q.graph)) := by
  refine ⟨?_, ?_, ?_, ?_⟩
  · simp only [quads_to_sparql_insert, groupQuads]
    rw [parts_foldl_eq]
  · exact groupQuads_go_keys_nodup _ _ (by simp)
  · intro key
    have h := groupQuads_go_lookup quads [] key
    simpa [groupQuads, groupLookup] using h
  · intro key
    have h := groupQuads_go_keys_mem quads [] key
    simpa [groupQuads] using h

/-- **C4**: when the commit-and-push stage fails, `post_slop` returns the
Git-failure message built from that stage's diagnostic, with no
extraction call and no HTTP sync call performed. -/
theorem post_slop_halts_on_git_failure (title content : String)
    (tags : Option (List String)) (env : PipelineEnv)
    (h0 : env.ensure_repo.1 = true) (h1 : env.write_error = none)
    (h2 : env.commit_push.1 = false) :
    post_slop title content tags env
      = ("âŒ Git operation failed: " ++ env.commit_push.2,
         [.repoCheck, .fileWrite, .gitCommitPush]) ∧
    ExtCall.nerExtract ∉ (post_slop title content tags env).2 ∧
    ExtCall.httpSync ∉ (post_slop title content tags env).2 := by
  have hm : post_slop title content tags env
      = ("âŒ Git operation failed: " ++ env.commit_push.2,
         [.repoCheck, .fileWrite, .gitCommitPush]) := by
    simp [post_slop, h0, h1, h2]
  refine ⟨hm, ?_, ?_⟩ <;> rw [hm] <;> simp

/-- Witness for C4 at a concrete environment whose commit fails. -/
theorem post_slop_halts_on_git_failure_witness :
    post_slop "t" "c" none
        ⟨(true, "ready"), "0123456789ab", "ts", "al", "u/r", none, (false, "push rejected"),
          none, .ok [], .ok "", .ok (), "https://slop.at"⟩
      = ("âŒ Git operation failed: " ++
          (⟨(true, "ready"), "0123456789ab", "ts", "al", "u/r", none, (false, "push rejected"),
            none, .ok [], .ok "", .ok (), "https://slop.at"⟩ : PipelineEnv).commit_push.2,
         [.repoCheck, .fileWrite, .gitCommitPush]) ∧
    ExtCall.nerExtract ∉ (post_slop "t" "c" none
        ⟨(true, "ready"), "0123456789ab", "ts", "al", "u/r", none, (false, "push rejected"),
          none, .ok [], .ok "", .ok (), "https://slop.at"⟩).2 ∧
    ExtCall.httpSync ∉ (post_slop "t" "c" none
        ⟨(true, "ready"), "0123456789ab", "ts", "al", "u/r", none, (false, "push rejected"),
          none, .ok [], .ok "", .ok (), "https://slop.at"⟩).2 :=
  post_slop_halts_on_git_failure "t" "c" none
    ⟨(true, "ready"), "0123456789ab", "ts", "al", "u/r", none, (false, "push rejected"),
      none, .ok [], .ok "", .ok (), "https://slop.at"⟩ rfl rfl rfl

/-- **C5**: when a stage after a successful commit fails — extraction,
graph build, or remote sync — the reply names the failed stage, carries
that stage's diagnostic, and still contains the commit result message
and the GitHub file URL. -/
theorem post_slop_reports_artifacts (title content : String)
    (tags : Option (List String)) (env : PipelineEnv)
    (h0 : env.ensure_repo.1 = true) (h1 : env.write_error = none)
    (h2 : env.commit_push.1 = true) :
    (∀ e, env.extract_result = .error e →
      post_slop title content tags env
        = ("âš ï¸ Slop posted but extraction failed: " ++ e ++ "\n"
             ++ env.commit_push.2 ++ "\nðŸ“„ " ++ githubUrlOf env,
           [.repoCheck, .fileWrite, .gitCommitPush, .gitFileUrl, .nerExtract]) ∧
      List.IsInfix env.commit_push.2.data (post_slop title content tags env).1.data ∧
      List.IsInfix (githubUrlOf env).data (post_slop title content tags env).1.data) ∧
    (∀ ents e, env.extract_result = .ok ents → env.build_result = .error e →
      post_slop title content tags env
        = ("âš ï¸ Slop posted but RDF building failed: " ++ e ++ "\n"
             ++ env.commit_push.2 ++ "\nðŸ“„ " ++ githubUrlOf env,
           [.repoCheck, .fileWrite, .gitCommitPush, .gitFileUrl, .nerExtract,
            .rdfBuild]) ∧
      List.IsInfix env.commit_push.2.data (post_slop title content tags env).1.data ∧
      List.IsInfix (githubUrlOf env).data (post_slop title content tags env).1.data) ∧
    (∀ ents nt e, env.extract_result = .ok ents → env.build_result = .ok nt →
        env.sync_result = .error e →
      post_slop title content tags env
        = ("âš ï¸ Slop posted but graph update failed: " ++ e ++ "\n"
             ++ env.commit_push.2 ++ "\nðŸ“„ " ++ githubUrlOf env,
           [.repoCheck, .fileWrite, .gitCommitPush, .gitFileUrl, .nerExtract,
            .rdfBuild, .httpSync]) ∧
      List.IsInfix env.commit_push.2.data (post_slop title content tags env).1.data ∧
      List.IsInfix (githubUrlOf env).data (post_slop title content tags env).1.data) := by
  refine ⟨?_, ?_, ?_⟩
  · intro e he
    have hm : post_slop title content tags env
        = ("âš ï¸ Slop posted but extraction failed: " ++ e ++ "\n"
             ++ env.commit_push.2 ++ "\nðŸ“„ " ++ githubUrlOf env,
           [.repoCheck, .fileWrite, .gitCommitPush, .gitFileUrl, .nerExtract]) := by
      simp [post_slop, h0, h1, h2, he]
    refine ⟨hm, ?_, ?_⟩ <;> rw [hm]
    · exact ⟨("âš ï¸ Slop posted but extraction failed: " ++ e ++ "\n").data,
        ("\nðŸ“„ " ++ githubUrlOf env).data, by simp [String.data_append]⟩
    · exact ⟨("âš ï¸ Slop posted but extraction failed: " ++ e ++ "\n"
          ++ env.commit_push.2 ++ "\nðŸ“„ ").data, [], by simp [String.data_append]⟩
  · intro ents e he hb
    have hm : post_slop title content tags env
        = ("âš ï¸ Slop posted but RDF building failed: " ++ e ++ "\n"
             ++ env.commit_push.2 ++ "\nðŸ“„ " ++ githubUrlOf env,
           [.repoCheck, .fileWrite, .gitCommitPush, .gitFileUrl, .nerExtract,
            .rdfBuild]) := by
      simp [post_slop, h0, h1, h2, he, hb]
    refine ⟨hm, ?_, ?_⟩ <;> rw [hm]
    · exact ⟨("âš ï¸ Slop posted but RDF building failed: " ++ e ++ "\n").data,
        ("\nðŸ“„ " ++ githubUrlOf env).data, by simp [String.data_append]⟩
    · exact ⟨("âš ï¸ Slop posted but RDF building failed: " ++ e ++ "\n"
          ++ env.commit_push.2 ++ "\nðŸ“„ ").data, [], by simp [String.data_append]⟩
  · intro ents nt e he hb hs
    have hm : post_slop title content tags env
        = ("âš ï¸ Slop posted but graph update failed: " ++ e ++ "\n"
             ++ env.commit_push.2 ++ "\nðŸ“„ " ++ githubUrlOf env,
           [.repoCheck, .fileWrite, .gitCommitPush, .gitFileUrl, .nerExtract,
            .rdfBuild, .httpSync]) := by
      simp [post_slop, h0, h1, h2, he, hb, hs]
    refine ⟨hm, ?_, ?_⟩ <;> rw [hm]
    · exact ⟨("âš ï¸ Slop posted but graph update failed: " ++ e ++ "\n").data,
        ("\nðŸ“„ " ++ githubUrlOf env).data, by simp [String.data_append]⟩
    · exact ⟨("âš ï¸ Slop posted but graph update failed: " ++ e ++ "\n"
          ++ env.commit_push.2 ++ "\nðŸ“„ ").data, [], by simp [String.data_append]⟩

/-- Witness for C5 at a concrete environment whose extraction fails
after a successful commit. -/
theorem post_slop_reports_artifacts_witness :
    post_slop "t" "c" none
        ⟨(true, "ready"), "0123456789ab", "ts", "al", "u/r", none,
          (true, "committed and pushed"), some "https://github.com/u/r/blob/h/01234567.md",
          .error "NER down", .ok "", .ok (), "https://slop.at"⟩
      = ("âš ï¸ Slop posted but extraction failed: " ++ "NER down" ++ "\n"
           ++ (⟨(true, "ready"), "0123456789ab", "ts", "al", "u/r", none,
                (true, "committed and pushed"),
                some "https://github.com/u/r/blob/h/01234567.md",
                .error "NER down", .ok "", .ok (), "https://slop.at"⟩ :
                PipelineEnv).commit_push.2
           ++ "\nðŸ“„ " ++ githubUrlOf
              ⟨(true, "ready"), "0123456789ab", "ts", "al", "u/r", none,
                (true, "committed and pushed"),
                some "https://github.com/u/r/blob/h/01234567.md",
                .error "NER down", .ok "", .ok (), "https://slop.at"⟩,
         [.repoCheck, .fileWrite, .gitCommitPush, .gitFileUrl, .nerExtract]) ∧
    List.IsInfix
      (⟨(true, "ready"), "0123456789ab", "ts", "al", "u/r", none,
        (true, "committed and pushed"), some "https://github.com/u/r/blob/h/01234567.md",
        .error "NER down", .ok "", .ok (), "https://slop.at"⟩ :
        PipelineEnv).commit_push.2.data
      (post_slop "t" "c" none
        ⟨(true, "ready"), "0123456789ab", "ts", "al", "u/r", none,
          (true, "committed and pushed"), some "https://github.com/u/r/blob/h/01234567.md",
          .error "NER down", .ok "", .ok (), "https://slop.at"⟩).1.data ∧
    List.IsInfix
      (githubUrlOf
        ⟨(true, "ready"), "0123456789ab", "ts", "al", "u/r", none,
          (true, "committed and pushed"), some "https://github.com/u/r/blob/h/01234567.md",
          .error "NER down", .ok "", .ok (), "https://slop.at"⟩).data
      (post_slop "t" "c" none
        ⟨(true, "ready"), "0123456789ab", "ts", "al", "u/r", none,
          (true, "committed and pushed"), some "https://github.com/u/r/blob/h/01234567.md",
          .error "NER down", .ok "", .ok (), "https://slop.at"⟩).1.data :=
  (post_slop_reports_artifacts "t" "c" none
    ⟨(true, "ready"), "0123456789ab", "ts", "al", "u/r", none,
      (true, "committed and pushed"), some "https://github.com/u/r/blob/h/01234567.md",
      .error "NER down", .ok "", .ok (), "https://slop.at"⟩ rfl rfl rfl).1
    "NER down" rfl

end SlopNet
